import Mathlib

/-!
Verification of the relevance-classification and deduplication pipeline of
`personalized-aws-features`.

The development shallowly embeds the Python modules
`integrations/bedrock.py`, `integrations/dynamodb.py`, `core/processor.py`
and `cli.py`.  External collaborators (the Bedrock oracle, the JSON
library, the DynamoDB client, the Slack sender) are passed in as explicit
behaviour functions, so every theorem quantifies over all behaviours of
those collaborators.
-/

/-- Announcement record: a Python dict with keys `title`, `link`,
`description`, `datePosted`, and the fields mutated during processing,
`services`, `relevant` (dict.get with default `False`) and `summary`
(absent until set, hence an `Option`). -/
structure Announcement where
  title : String := ""
  link : String := ""
  description : String := ""
  datePosted : String := ""
  services : List String := []
  relevant : Bool := false
  summary : Option String := none
  deriving Repr, DecidableEq

/-- Parsed JSON body of a Bedrock reply, with the `dict.get` defaults used
by `process_announcement_with_bedrock` (`services` default `[]`,
`relevant` default `False`, `summary` default `""`). -/
structure BedrockResult where
  relevant : Bool := false
  services : List String := []
  summary : String := ""
  deriving Repr, DecidableEq

/-- The module-level `_api_calls` dict of `integrations/bedrock.py`. -/
structure ApiCalls where
  total : Nat := 0
  throttled : Nat := 0
  errors : Nat := 0
  deriving Repr, DecidableEq

/-- Outcome of one `bedrock.converse` call: either an exception (any
`Exception e`, observed through `str(e)`) or a response text. -/
inductive ConverseOutcome where
  | raised (msg : String)
  | responded (text : String)
  deriving Repr, DecidableEq

/-- Python `pat in s` substring test (for `"ThrottlingException" in str(e)`):
a non-empty pattern occurs in `s` iff `s.splitOn pat` has more than one
part. -/
def strContains (s pat : String) : Bool :=
  decide (2 ≤ (s.splitOn pat).length)

/-- Model of `re.search(r"\x7b.*\x7d", response_text, re.DOTALL)` followed by
`.group(0)`: the greedy match runs from the first opening brace to the last
closing brace after it, if any. -/
def extract_json_substring (text : String) : Option String :=
  let cs := text.data
  match cs.findIdx? (fun c => c = '{') with
  | none => none
  | some i =>
    match cs.reverse.findIdx? (fun c => c = '}') with
    | none => none
    | some rj =>
      let j := cs.length - 1 - rj
      if i < j then some (String.mk ((cs.drop i).take (j - i + 1))) else none

/-- The nested parse of `process_announcement_with_bedrock`: first
`json.loads` on the whole response text; on failure, regex-extract the
first well-formed brace-delimited substring and `json.loads` that; `none`
models the path where a `JSONDecodeError`/`ValueError` is raised and
caught.  `jsonLoads` is the behaviour of the external `json` library. -/
def parse_bedrock_response (jsonLoads : String → Option BedrockResult)
    (text : String) : Option BedrockResult :=
  match jsonLoads text with
  | some r => some r
  | none =>
    match extract_json_substring text with
    | some sub => jsonLoads sub
    | none => none

/-- Embedding of `process_announcement_with_bedrock` (bedrock.py lines
17-136).  `converse` is the oracle behaviour; the `_api_calls` dict is
threaded explicitly.  All exceptions from the oracle call are caught: a
message containing `ThrottlingException` bumps the throttled counter, any
other exception or parse failure bumps the error counter, and in every
failure mode the announcement is returned with `services=[]` and
`relevant=False` (its `summary` key is left untouched). -/
def process_announcement_with_bedrock
    (converse : Announcement → ConverseOutcome)
    (jsonLoads : String → Option BedrockResult)
    (a : Announcement) (calls : ApiCalls) : Announcement × ApiCalls :=
  let calls := { calls with total := calls.total + 1 }
  match converse a with
  | ConverseOutcome.responded text =>
    match parse_bedrock_response jsonLoads text with
    | some result =>
      let a := { a with services := result.services, relevant := result.relevant }
      if result.relevant then
        ({ a with summary := some result.summary }, calls)
      else
        (a, calls)
    | none =>
      ({ a with services := [], relevant := false },
       { calls with errors := calls.errors + 1 })
  | ConverseOutcome.raised msg =>
    if strContains msg "ThrottlingException" then
      ({ a with services := [], relevant := false },
       { calls with throttled := calls.throttled + 1 })
    else
      ({ a with services := [], relevant := false },
       { calls with errors := calls.errors + 1 })

/-- The announcement produced for one input by the classification stage,
independent of the counter state (helper for stating batch results). -/
def classify_one (converse : Announcement → ConverseOutcome)
    (jsonLoads : String → Option BedrockResult) (a : Announcement) : Announcement :=
  (process_announcement_with_bedrock converse jsonLoads a {}).1

/-- True when the classification of `a` is degraded: the oracle call raised,
or its response failed both parse attempts. -/
def classification_failed (converse : Announcement → ConverseOutcome)
    (jsonLoads : String → Option BedrockResult) (a : Announcement) : Bool :=
  match converse a with
  | ConverseOutcome.raised _ => true
  | ConverseOutcome.responded text => (parse_bedrock_response jsonLoads text).isNone

/-- True when the oracle call for `a` raised a throttling exception. -/
def classification_throttled (converse : Announcement → ConverseOutcome)
    (a : Announcement) : Bool :=
  match converse a with
  | ConverseOutcome.raised msg => strContains msg "ThrottlingException"
  | ConverseOutcome.responded _ => false

/-- The `executor.map` body of `process_announcements_in_parallel`:
`Executor.map` yields results in input order, and each task updates the
module-level `_api_calls`; the counter updates are threaded here in
sequence (their aggregate value after all tasks finish is
order-independent). -/
def run_batch (converse : Announcement → ConverseOutcome)
    (jsonLoads : String → Option BedrockResult) :
    List Announcement → ApiCalls → List Announcement × ApiCalls
  | [], calls => ([], calls)
  | a :: rest, calls =>
    let r := process_announcement_with_bedrock converse jsonLoads a calls
    let rr := run_batch converse jsonLoads rest r.2
    (r.1 :: rr.1, rr.2)

/-- Embedding of `process_announcements_in_parallel` (bedrock.py lines
139-194).  The `_api_calls` counters are reset to zero at entry and their
final value is returned alongside the partition.  Constructing
`ThreadPoolExecutor(max_workers)` with `max_workers ≤ 0` raises the
library's `ValueError` (its documented behaviour); the separation loop
appends relevant and non-relevant items in input order. -/
def process_announcements_in_parallel
    (converse : Announcement → ConverseOutcome)
    (jsonLoads : String → Option BedrockResult)
    (announcements : List Announcement) (max_workers : Int) :
    Except String (List Announcement × List Announcement × ApiCalls) :=
  if max_workers ≤ 0 then
    Except.error "max_workers must be greater than 0"
  else
    let r := run_batch converse jsonLoads announcements { total := 0, throttled := 0, errors := 0 }
    let relevant_announcements := r.1.filter (fun a => a.relevant)
    let non_relevant_announcements := r.1.filter (fun a => !a.relevant)
    Except.ok (relevant_announcements, non_relevant_announcements, r.2)

/-- Result of one DynamoDB `get_item` call as observed by
`is_announcement_seen`: the reply contains an `Item`, contains none, or the
call raised. -/
inductive DDBGetResult where
  | found
  | missing
  | raised (msg : String)
  deriving Repr, DecidableEq

/-- Embedding of `generate_announcement_id`, step one (dynamodb.py lines
52-54): the key string is `"|".join([title, link])`. -/
def key_string (a : Announcement) : String :=
  String.intercalate "|" [a.title, a.link]

/-- Embedding of `generate_announcement_id` (dynamodb.py lines 42-57):
the MD5 hex digest of the key string.  The digest itself is the behaviour
of the external `hashlib` library, passed in as a pure function
`md5hex`. -/
def generate_announcement_id (md5hex : String → String) (a : Announcement) : String :=
  md5hex (key_string a)

/-- Embedding of `save_announcement` (dynamodb.py lines 60-106) for a list
argument.  The table state is the list of stored announcement ids;
`put_fails a` is the behaviour of the DynamoDB client for item `a` (an
exception inside the loop body is caught per item and counted).  Returns
the `(success, failure)` counts dict and the table state after the loop. -/
def save_announcement (md5hex : String → String) (put_fails : Announcement → Bool) :
    List String → List Announcement → (Nat × Nat) × List String
  | store, [] => ((0, 0), store)
  | store, a :: rest =>
    if put_fails a then
      let r := save_announcement md5hex put_fails store rest
      ((r.1.1, r.1.2 + 1), r.2)
    else
      let r := save_announcement md5hex put_fails
        (store ++ [generate_announcement_id md5hex a]) rest
      ((r.1.1 + 1, r.1.2), r.2)

/-- Embedding of `is_announcement_seen` (dynamodb.py lines 109-142):
`get_item` on the announcement's id; `True` iff the reply holds an `Item`;
any exception is caught and the function returns `False`. -/
def is_announcement_seen (md5hex : String → String)
    (getItem : String → DDBGetResult) (a : Announcement) : Bool :=
  match getItem (generate_announcement_id md5hex a) with
  | DDBGetResult.found => true
  | DDBGetResult.missing => false
  | DDBGetResult.raised _ => false

/-- Behaviour of a reachable DynamoDB table whose contents are `store`:
`get_item` finds exactly the stored ids. -/
def lookup_of (store : List String) : String → DDBGetResult :=
  fun k => if store.contains k then DDBGetResult.found else DDBGetResult.missing

/-- The `results` dict of `core/processor.py` (`initialize_results` plus
the keys written later; the Slack keys are absent until
`send_slack_notifications` writes them). -/
structure Results where
  service_count : Nat := 0
  announcement_count : Nat := 0
  relevant_count : Nat := 0
  filtered_history_count : Nat := 0
  slack_success : Option Nat := none
  slack_failure : Option Nat := none
  deriving Repr, DecidableEq

/-- The configuration keys of `config` consumed by the pipeline sections
modelled here.  A missing Slack token or channel is the empty string
(Python `None` and `""` are both falsy in the `not (token and channel)`
guard). -/
structure Config where
  no_history : Bool := false
  slack_enabled : Bool := false
  slack_token : String := ""
  slack_channel : String := ""
  deriving Repr, DecidableEq

/-- Embedding of `filter_seen_announcements` (processor.py lines 74-94):
with history disabled or no table, return `(announcements, [])`;
otherwise the loop routes each announcement, in input order, to the
filtered list when seen and to the new list otherwise. -/
def filter_seen_announcements (md5hex : String → String) (use_history : Bool)
    (table : Option (String → DDBGetResult)) (announcements : List Announcement) :
    List Announcement × List Announcement :=
  match use_history, table with
  | true, some t =>
    let p := announcements.partition (fun a => is_announcement_seen md5hex t a)
    (p.2, p.1)
  | _, _ => (announcements, [])

/-- The `RuntimeError` message raised by `send_slack_notifications` when
some deliveries failed. -/
def slack_failure_msg (n : Nat) : String :=
  "Failed to send " ++ toString n ++ " announcement(s) to Slack"

/-- Embedding of `send_slack_notifications` (processor.py lines 97-116).
`slack_send` is the behaviour of `send_announcements_to_slack`, returning
the `(success, failure)` counts.  Returns the `results` dict as mutated,
the raised `RuntimeError` if any, and the list of announcements actually
handed to the Slack sender (empty when the missing-credential guard
returns early). -/
def send_slack_notifications (slack_send : List Announcement → Nat × Nat)
    (announcements : List Announcement) (slack_token slack_channel : String)
    (results : Results) : Results × Option String × List Announcement :=
  if slack_token = "" || slack_channel = "" then
    (results, none, [])
  else
    let slack_results := slack_send announcements
    let results := { results with
      slack_success := some slack_results.1,
      slack_failure := some slack_results.2 }
    if 0 < slack_results.2 then
      (results, some (slack_failure_msg slack_results.2), announcements)
    else
      (results, none, announcements)

/-- Observable outcome of one `process_features` call: `result` is what the
caller receives (the returned `results` dict, or the raised exception's
message); `finalResults` is the `results` dict at the end of the run, which
the caller sees only on the `ok` path; `store` is the DynamoDB table state
after the run (persisted effects survive a raised error); `notified` lists
the announcements handed to the Slack sender. -/
structure RunOutcome where
  result : Except String Results
  finalResults : Results
  store : List String
  notified : List Announcement
  deriving Repr

/-- Embedding of `process_features` (processor.py lines 119-195) from the
point where the classification outcome is available: `relevant0` and
`non_relevant` are the two lists returned by
`process_announcements_in_parallel`, `service_count` the Cost Explorer
result, `table` the DynamoDB table resource from `setup_dynamodb` (`none`
when `no_history` is set), `store` its contents, `put_fails` the per-item
`put_item` behaviour and `slack_send` the Slack sender behaviour.
It updates the `results` dict, filters seen announcements when history is
enabled, saves the new relevant announcements, and sends Slack
notifications when enabled. -/
def process_features (md5hex : String → String) (put_fails : Announcement → Bool)
    (slack_send : List Announcement → Nat × Nat) (cfg : Config)
    (table : Option (String → DDBGetResult)) (store : List String)
    (service_count : Nat) (relevant0 non_relevant : List Announcement) : RunOutcome :=
  let use_history := !cfg.no_history
  let results : Results :=
    { service_count := service_count,
      announcement_count := relevant0.length + non_relevant.length,
      relevant_count := relevant0.length }
  let step :=
    match use_history, table with
    | true, some t =>
      let fr := filter_seen_announcements md5hex true (some t) relevant0
      (fr.1, { results with filtered_history_count := fr.2.length })
    | _, _ => (relevant0, results)
  let relevant := step.1
  let results := step.2
  let store2 :=
    if !relevant.isEmpty && use_history && table.isSome then
      (save_announcement md5hex put_fails store relevant).2
    else store
  let slackStep :=
    if cfg.slack_enabled && !relevant.isEmpty then
      let s := send_slack_notifications slack_send relevant cfg.slack_token cfg.slack_channel results
      ((match s.2.1 with
        | some m => Except.error m
        | none => Except.ok s.1), s.1, s.2.2)
    else (Except.ok results, results, ([] : List Announcement))
  { result := slackStep.1, finalResults := slackStep.2.1,
    store := store2, notified := slackStep.2.2 }

/-- Repeated invocations of `process_features` against the same DynamoDB
table: each run is given the table state left by the previous run (a
reachable table, looked up via `lookup_of`) and the classified-relevant
batch of that run.  Returns the list of per-run notified lists. -/
def run_pipeline_history (md5hex : String → String) (put_fails : Announcement → Bool)
    (slack_send : List Announcement → Nat × Nat) (cfg : Config) :
    List String → List (List Announcement) → List (List Announcement)
  | _, [] => []
  | store, batch :: rest =>
    let o := process_features md5hex put_fails slack_send cfg
      (some (lookup_of store)) store 0 batch []
    o.notified :: run_pipeline_history md5hex put_fails slack_send cfg o.store rest

/-- Decimal value of a digit string (helper for the `int()` model). -/
def digits_to_nat (ds : List Char) : Nat :=
  ds.foldl (fun n c => n * 10 + (c.toNat - '0'.toNat)) 0

/-- Embedding of the `--workers` argument handling of `parse_args`
(cli.py lines 26-31): `argparse` applies `type=int` — an optional sign
followed by decimal digits — and performs no range validation, so any
integer, zero or negative included, is accepted. -/
def parse_workers_arg (s : String) : Option Int :=
  match s.data with
  | [] => none
  | '-' :: ds =>
    if !ds.isEmpty && ds.all Char.isDigit then some (-(Int.ofNat (digits_to_nat ds)))
    else none
  | ds =>
    if ds.all Char.isDigit then some (Int.ofNat (digits_to_nat ds)) else none

/-- Reduces an `Except` to whether it is a success, mirroring "the call
returned rather than raised". -/
def except_is_ok {α : Type} (e : Except String α) : Bool :=
  match e with
  | Except.ok _ => true
  | Except.error _ => false

/-- One hardware-level step of the unsynchronized `_api_calls["total"] += 1`
statement (bedrock.py line 36) executed by worker thread `tid`: the `+=` on
a dict entry is a read of the entry into a per-thread temporary followed by
a store of temporary + 1, with no lock around the pair. -/
inductive CounterStep where
  | readTotal (tid : Nat)
  | writeTotal (tid : Nat)
  deriving Repr, DecidableEq

/-- Runs a schedule of interleaved unsynchronized increments of the shared
`total` counter.  The state is the shared counter value together with each
thread's temporary register. -/
def run_unsync_total : List CounterStep → Nat × (Nat → Nat) → Nat × (Nat → Nat)
  | [], s => s
  | CounterStep.readTotal t :: rest, s =>
    run_unsync_total rest (s.1, fun t2 => if t2 = t then s.1 else s.2 t2)
  | CounterStep.writeTotal t :: rest, s =>
    run_unsync_total rest (s.2 t + 1, s.2)

/-! Concrete fixtures used by witnesses and counterexamples. -/

/-- Concrete announcement fixture. -/
def annEC2 : Announcement :=
  { title := "Amazon EC2 introduces new instance type",
    link := "https://aws.amazon.com/about-aws/whats-new/ec2" }

/-- Concrete announcement fixture. -/
def annCF : Announcement :=
  { title := "Amazon CloudFront edge locations",
    link := "https://aws.amazon.com/about-aws/whats-new/cloudfront" }

/-- Oracle behaviour fixture: every call raises a throttling exception. -/
def converseThrottle : Announcement → ConverseOutcome :=
  fun _ => ConverseOutcome.raised "An error occurred ThrottlingException when calling Converse"

/-- Oracle behaviour fixture: every call returns unparseable text. -/
def converseNoise : Announcement → ConverseOutcome :=
  fun _ => ConverseOutcome.responded "no structured data here"

/-- JSON library behaviour fixture: nothing parses. -/
def jsonNone : String → Option BedrockResult :=
  fun _ => none

/-- Identity stand-in for the MD5 hex digest in witnesses (the digest choice
is irrelevant to the properties quantified over `md5hex`). -/
def md5id : String → String :=
  fun s => s

/-- Remaining concrete fixtures (relocated with the definitions). -/
def putOk : Announcement → Bool :=
  fun _ => false

def slackAllOk : List Announcement → Nat × Nat :=
  fun l => (l.length, 0)

def slackOneFail : List Announcement → Nat × Nat :=
  fun l => (l.length - 1, 1)

def cfgMain : Config :=
  { no_history := false, slack_enabled := true,
    slack_token := "xoxb-token", slack_channel := "aws-updates" }

def cfgNoHist : Config :=
  { no_history := true, slack_enabled := false }

def cfgNoSlack : Config :=
  { no_history := false, slack_enabled := false }

def cfgSlackOnly : Config :=
  { no_history := true, slack_enabled := true,
    slack_token := "xoxb-token", slack_channel := "aws-updates" }

/-- Configuration fixture: Slack enabled but token missing. -/
def cfgNoToken : Config :=
  { no_history := true, slack_enabled := true,
    slack_token := "", slack_channel := "aws-updates" }

/-! Helper lemmas about the classification engine. -/

theorem contains_iff_mem (store : List String) (x : String) :
    store.contains x = true ↔ x ∈ store := by
  simp [List.contains, List.elem_iff]

theorem length_filter_add_length_filter_not {α : Type} (p : α → Bool) (l : List α) :
    (l.filter p).length + (l.filter (fun a => !p a)).length = l.length := by
  induction l with
  | nil => rfl
  | cons a rest ih => cases h : p a <;> simp [List.filter_cons, h] <;> omega

theorem pawb_fst (converse : Announcement → ConverseOutcome)
    (jsonLoads : String → Option BedrockResult) (a : Announcement) (calls : ApiCalls) :
    (process_announcement_with_bedrock converse jsonLoads a calls).1 =
      classify_one converse jsonLoads a := by
  unfold classify_one process_announcement_with_bedrock
  cases converse a with
  | responded text =>
    cases h : parse_bedrock_response jsonLoads text with
    | some r => cases hr : r.relevant <;> simp [h, hr]
    | none => simp [h]
  | raised msg => cases h : strContains msg "ThrottlingException" <;> simp [h]

theorem pawb_snd (converse : Announcement → ConverseOutcome)
    (jsonLoads : String → Option BedrockResult) (a : Announcement) (calls : ApiCalls) :
    (process_announcement_with_bedrock converse jsonLoads a calls).2 =
      { total := calls.total + 1,
        throttled := calls.throttled +
          (if classification_throttled converse a then 1 else 0),
        errors := calls.errors +
          (if classification_failed converse jsonLoads a &&
              !classification_throttled converse a then 1 else 0) } := by
  unfold process_announcement_with_bedrock classification_throttled classification_failed
  cases converse a with
  | responded text =>
    cases h : parse_bedrock_response jsonLoads text with
    | some r => cases hr : r.relevant <;> simp [h, hr]
    | none => simp [h]
  | raised msg => cases h : strContains msg "ThrottlingException" <;> simp [h]

theorem run_batch_eq (converse : Announcement → ConverseOutcome)
    (jsonLoads : String → Option BedrockResult) (anns : List Announcement) :
    ∀ calls : ApiCalls,
    run_batch converse jsonLoads anns calls =
      (anns.map (classify_one converse jsonLoads),
       { total := calls.total + anns.length,
         throttled := calls.throttled + anns.countP (classification_throttled converse),
         errors := calls.errors + anns.countP (fun a =>
           classification_failed converse jsonLoads a &&
             !classification_throttled converse a) }) := by
  induction anns with
  | nil => intro calls; simp [run_batch]
  | cons a rest ih =>
    intro calls
    rw [run_batch, ih, pawb_fst, pawb_snd]
    rw [Prod.ext_iff]
    refine ⟨rfl, ?_⟩
    simp only [ApiCalls.mk.injEq, List.countP_cons, List.length_cons]
    cases ht : classification_throttled converse a <;>
      cases hf : classification_failed converse jsonLoads a <;>
      simp [ht, hf] <;> omega

theorem throttled_implies_failed (converse : Announcement → ConverseOutcome)
    (jsonLoads : String → Option BedrockResult) (a : Announcement)
    (h : classification_throttled converse a = true) :
    classification_failed converse jsonLoads a = true := by
  unfold classification_throttled at h
  unfold classification_failed
  cases hc : converse a <;> simp [hc] at h ⊢

theorem countP_throttled_add_errors (converse : Announcement → ConverseOutcome)
    (jsonLoads : String → Option BedrockResult) (anns : List Announcement) :
    anns.countP (classification_throttled converse) +
      anns.countP (fun a => classification_failed converse jsonLoads a &&
        !classification_throttled converse a) =
      anns.countP (classification_failed converse jsonLoads) := by
  induction anns with
  | nil => rfl
  | cons a rest ih =>
    have hti := throttled_implies_failed converse jsonLoads a
    simp only [List.countP_cons]
    cases ht : classification_throttled converse a <;>
      cases hf : classification_failed converse jsonLoads a <;>
      simp_all <;> omega

/-- Shared shape of a successful `process_announcements_in_parallel` run:
the two partitions are the order-preserving filters of the classified batch
and the counters are the exact per-item sums. -/
theorem ppl_ok_eq (converse : Announcement → ConverseOutcome)
    (jsonLoads : String → Option BedrockResult)
    (anns : List Announcement) (w : Int) (hw : 0 < w) :
    process_announcements_in_parallel converse jsonLoads anns w =
      Except.ok ((anns.map (classify_one converse jsonLoads)).filter (fun a => a.relevant),
        (anns.map (classify_one converse jsonLoads)).filter (fun a => !a.relevant),
        { total := anns.length,
          throttled := anns.countP (classification_throttled converse),
          errors := anns.countP (fun a => classification_failed converse jsonLoads a &&
            !classification_throttled converse a) }) := by
  rw [process_announcements_in_parallel, if_neg (by omega)]
  simp only [run_batch_eq]
  simp

/-- C3: for every input batch of N announcements and every behaviour of the
classifier oracle, `process_announcements_in_parallel` returns a relevant
and a non-relevant sequence whose combined length is exactly N, and each
output is an input-order-preserving filter of the classified batch. -/
theorem C3_partition_completeness (converse : Announcement → ConverseOutcome)
    (jsonLoads : String → Option BedrockResult)
    (anns : List Announcement) (w : Int) (hw : 0 < w) :
    process_announcements_in_parallel converse jsonLoads anns w =
      Except.ok ((anns.map (classify_one converse jsonLoads)).filter (fun a => a.relevant),
        (anns.map (classify_one converse jsonLoads)).filter (fun a => !a.relevant),
        { total := anns.length,
          throttled := anns.countP (classification_throttled converse),
          errors := anns.countP (fun a => classification_failed converse jsonLoads a &&
            !classification_throttled converse a) }) ∧
    ((anns.map (classify_one converse jsonLoads)).filter (fun a => a.relevant)).length +
      ((anns.map (classify_one converse jsonLoads)).filter (fun a => !a.relevant)).length =
      anns.length := by
  refine ⟨ppl_ok_eq converse jsonLoads anns w hw, ?_⟩
  rw [length_filter_add_length_filter_not, List.length_map]

/-- Witness for C3 at a concrete batch and oracle behaviour. -/
theorem C3_witness :
    process_announcements_in_parallel converseThrottle jsonNone [annEC2] 1 =
      Except.ok (([annEC2].map (classify_one converseThrottle jsonNone)).filter (fun a => a.relevant),
        ([annEC2].map (classify_one converseThrottle jsonNone)).filter (fun a => !a.relevant),
        { total := [annEC2].length,
          throttled := [annEC2].countP (classification_throttled converseThrottle),
          errors := [annEC2].countP (fun a => classification_failed converseThrottle jsonNone a &&
            !classification_throttled converseThrottle a) }) ∧
    (([annEC2].map (classify_one converseThrottle jsonNone)).filter (fun a => a.relevant)).length +
      (([annEC2].map (classify_one converseThrottle jsonNone)).filter (fun a => !a.relevant)).length =
      [annEC2].length :=
  C3_partition_completeness converseThrottle jsonNone [annEC2] 1 (by decide)

/-- C4: when the oracle call raises or its response parses neither as a
whole nor via the extracted brace-delimited substring, the per-announcement
classification returns the announcement with `relevant=false` and empty
services, bumps the throttled counter on a throttling exception and the
error counter otherwise, and the batch call still returns (never raises). -/
theorem C4_fail_safe_classification (converse : Announcement → ConverseOutcome)
    (jsonLoads : String → Option BedrockResult) (a : Announcement) (calls : ApiCalls)
    (anns : List Announcement) (w : Int)
    (hfail : classification_failed converse jsonLoads a = true) (hw : 0 < w) :
    (process_announcement_with_bedrock converse jsonLoads a calls).1 =
      { a with services := [], relevant := false } ∧
    (process_announcement_with_bedrock converse jsonLoads a calls).2 =
      { total := calls.total + 1,
        throttled := calls.throttled +
          (if classification_throttled converse a then 1 else 0),
        errors := calls.errors +
          (if classification_throttled converse a then 0 else 1) } ∧
    except_is_ok (process_announcements_in_parallel converse jsonLoads anns w) = true := by
  refine ⟨?_, ?_, ?_⟩
  · unfold process_announcement_with_bedrock
    unfold classification_failed at hfail
    cases hc : converse a with
    | responded text =>
      rw [hc] at hfail
      rw [Option.isNone_iff_eq_none] at hfail
      simp [hfail]
    | raised msg => cases h : strContains msg "ThrottlingException" <;> simp [h]
  · rw [pawb_snd]
    cases ht : classification_throttled converse a <;> simp [ht, hfail]
  · rw [process_announcements_in_parallel, if_neg (by omega)]
    simp [except_is_ok]

/-- Witness for C4 at a concrete unparseable oracle response. -/
theorem C4_witness :
    (process_announcement_with_bedrock converseNoise jsonNone annEC2
        { total := 0, throttled := 0, errors := 0 }).1 =
      { annEC2 with services := [], relevant := false } ∧
    (process_announcement_with_bedrock converseNoise jsonNone annEC2
        { total := 0, throttled := 0, errors := 0 }).2 =
      { total := 0 + 1,
        throttled := 0 + (if classification_throttled converseNoise annEC2 then 1 else 0),
        errors := 0 + (if classification_throttled converseNoise annEC2 then 0 else 1) } ∧
    except_is_ok (process_announcements_in_parallel converseNoise jsonNone [annEC2] 1) = true :=
  C4_fail_safe_classification converseNoise jsonNone annEC2
    { total := 0, throttled := 0, errors := 0 } [annEC2] 1 (by decide) (by decide)

/-- C7 counterexample: the CLI boundary does not validate the concurrency
value (`argparse` accepts `-5` for `--workers`); the rejection only happens
inside the classification stage, where the thread-pool constructor raises. -/
theorem C7_counterexample :
    parse_workers_arg "-5" = some (-5) ∧
    process_announcements_in_parallel converseThrottle jsonNone [annEC2] (-5) =
      Except.error "max_workers must be greater than 0" :=
  ⟨by decide, rfl⟩

/-- C7 (amended): a concurrency value of 0 or negative makes the
classification stage fail with the thread-pool library's error (the run
aborts rather than hanging); it is not validated at the CLI boundary. -/
theorem C7_invalid_concurrency_errors (converse : Announcement → ConverseOutcome)
    (jsonLoads : String → Option BedrockResult)
    (anns : List Announcement) (w : Int) (hw : w ≤ 0) :
    process_announcements_in_parallel converse jsonLoads anns w =
      Except.error "max_workers must be greater than 0" := by
  rw [process_announcements_in_parallel, if_pos hw]

/-- Witness for the amended C7 at concurrency 0. -/
theorem C7_witness :
    process_announcements_in_parallel converseThrottle jsonNone [annEC2] 0 =
      Except.error "max_workers must be greater than 0" :=
  C7_invalid_concurrency_errors converseThrottle jsonNone [annEC2] 0 (by decide)

/-- C9 counterexample: the module-level counter increments are plain
read-then-write pairs with no lock; interleaving two increments of
`_api_calls` loses an update, so after two calls the total can be 1, not
the exact call count 2. -/
theorem C9_counterexample :
    (run_unsync_total [CounterStep.readTotal 0, CounterStep.readTotal 1,
      CounterStep.writeTotal 0, CounterStep.writeTotal 1] (0, fun _ => 0)).1 = 1 ∧
    (1 : Nat) ≠ 2 :=
  ⟨rfl, by decide⟩

/-- C9 (amended): when the counter increments do not interleave (the
sequential model of the batch), the aggregate counters are exact: total
equals the batch length, and throttled plus errors equals the number of
failed classifications. -/
theorem C9_sequential_counters_exact (converse : Announcement → ConverseOutcome)
    (jsonLoads : String → Option BedrockResult)
    (anns : List Announcement) (w : Int) (hw : 0 < w) :
    process_announcements_in_parallel converse jsonLoads anns w =
      Except.ok ((anns.map (classify_one converse jsonLoads)).filter (fun a => a.relevant),
        (anns.map (classify_one converse jsonLoads)).filter (fun a => !a.relevant),
        { total := anns.length,
          throttled := anns.countP (classification_throttled converse),
          errors := anns.countP (fun a => classification_failed converse jsonLoads a &&
            !classification_throttled converse a) }) ∧
    anns.countP (classification_throttled converse) +
      anns.countP (fun a => classification_failed converse jsonLoads a &&
        !classification_throttled converse a) =
      anns.countP (classification_failed converse jsonLoads) :=
  ⟨ppl_ok_eq converse jsonLoads anns w hw,
   countP_throttled_add_errors converse jsonLoads anns⟩

/-- Witness for the amended C9 at a concrete batch. -/
theorem C9_witness :
    process_announcements_in_parallel converseNoise jsonNone [annEC2, annCF] 2 =
      Except.ok (([annEC2, annCF].map (classify_one converseNoise jsonNone)).filter (fun a => a.relevant),
        ([annEC2, annCF].map (classify_one converseNoise jsonNone)).filter (fun a => !a.relevant),
        { total := [annEC2, annCF].length,
          throttled := [annEC2, annCF].countP (classification_throttled converseNoise),
          errors := [annEC2, annCF].countP (fun a => classification_failed converseNoise jsonNone a &&
            !classification_throttled converseNoise a) }) ∧
    [annEC2, annCF].countP (classification_throttled converseNoise) +
      [annEC2, annCF].countP (fun a => classification_failed converseNoise jsonNone a &&
        !classification_throttled converseNoise a) =
      [annEC2, annCF].countP (classification_failed converseNoise jsonNone) :=
  C9_sequential_counters_exact converseNoise jsonNone [annEC2, annCF] 2 (by decide)

/-! Seen-store lemmas and claims. -/

theorem countP_not_add_countP {α : Type} (p : α → Bool) (l : List α) :
    l.countP (fun a => !p a) + l.countP p = l.length := by
  induction l with
  | nil => rfl
  | cons a rest ih => cases h : p a <;> simp [List.countP_cons, h] <;> omega

theorem save_announcement_counts (md5hex : String → String)
    (put_fails : Announcement → Bool) (anns : List Announcement) :
    ∀ store : List String,
    (save_announcement md5hex put_fails store anns).1.1 =
      anns.countP (fun a => !put_fails a) ∧
    (save_announcement md5hex put_fails store anns).1.2 =
      anns.countP (fun a => put_fails a) := by
  induction anns with
  | nil => intro store; simp [save_announcement]
  | cons a rest ih =>
    intro store
    cases h : put_fails a
    · rw [save_announcement, if_neg (by simp [h])]
      simp [List.countP_cons, h, ih]
    · rw [save_announcement, if_pos h]
      simp [List.countP_cons, h, ih]

theorem save_announcement_store (md5hex : String → String)
    (put_fails : Announcement → Bool) (anns : List Announcement) :
    ∀ store : List String,
    (save_announcement md5hex put_fails store anns).2 =
      store ++ (anns.filter (fun a => !put_fails a)).map (generate_announcement_id md5hex) := by
  induction anns with
  | nil => intro store; simp [save_announcement]
  | cons a rest ih =>
    intro store
    cases h : put_fails a
    · rw [save_announcement, if_neg (by simp [h])]
      simp [List.filter_cons, h, ih]
    · rw [save_announcement, if_pos h]
      simp [List.filter_cons, h, ih]

/-- C2: `generate_announcement_id` hashes the key string
`"|".join([title, link])`, and `"|"` can occur inside either field: the
distinct pairs `("a|b", "c")` and `("a", "b|c")` produce the same key
string, hence the same identity under every digest function — exactly the
concatenation collision the claim rules out. -/
theorem C2_identity_collision :
    key_string { title := "a|b", link := "c" } = key_string { title := "a", link := "b|c" } ∧
    ({ title := "a|b", link := "c" } : Announcement).title ≠
      ({ title := "a", link := "b|c" } : Announcement).title ∧
    (∀ md5hex : String → String,
      generate_announcement_id md5hex { title := "a|b", link := "c" } =
        generate_announcement_id md5hex { title := "a", link := "b|c" }) :=
  ⟨by decide, by decide, fun md5hex => congrArg md5hex (by decide)⟩

/-- C5: when the lookup against the persisted records raises,
`is_announcement_seen` returns `false` instead of propagating the error. -/
theorem C5_fail_open_lookup (md5hex : String → String)
    (getItem : String → DDBGetResult) (a : Announcement) (msg : String)
    (h : getItem (generate_announcement_id md5hex a) = DDBGetResult.raised msg) :
    is_announcement_seen md5hex getItem a = false := by
  unfold is_announcement_seen
  rw [h]

/-- Witness for C5 at a concrete raising lookup. -/
theorem C5_witness :
    is_announcement_seen md5id (fun _ => DDBGetResult.raised "connection error") annEC2 = false :=
  C5_fail_open_lookup md5id (fun _ => DDBGetResult.raised "connection error") annEC2
    "connection error" rfl

/-- C6: `save_announcement` attempts one record per announcement, the
success and failure counts are the exact per-item tallies and sum to the
input length, a failing item leaves every other item's record in the
table, and no per-item failure escapes (the function totally returns the
counts). -/
theorem C6_record_isolated_counts (md5hex : String → String)
    (put_fails : Announcement → Bool) (store : List String) (anns : List Announcement) :
    (save_announcement md5hex put_fails store anns).1.1 =
      anns.countP (fun a => !put_fails a) ∧
    (save_announcement md5hex put_fails store anns).1.2 =
      anns.countP (fun a => put_fails a) ∧
    (save_announcement md5hex put_fails store anns).1.1 +
      (save_announcement md5hex put_fails store anns).1.2 = anns.length ∧
    (save_announcement md5hex put_fails store anns).2 =
      store ++ (anns.filter (fun a => !put_fails a)).map (generate_announcement_id md5hex) := by
  obtain ⟨h1, h2⟩ := save_announcement_counts md5hex put_fails anns store
  refine ⟨h1, h2, ?_, save_announcement_store md5hex put_fails anns store⟩
  rw [h1, h2]
  exact countP_not_add_countP (fun a => put_fails a) anns

/-! Pipeline lemmas. -/

theorem is_seen_lookup_of (md5hex : String → String) (store : List String)
    (a : Announcement) :
    is_announcement_seen md5hex (lookup_of store) a =
      store.contains (generate_announcement_id md5hex a) := by
  unfold is_announcement_seen lookup_of
  cases h : store.contains (generate_announcement_id md5hex a) <;> simp [h]

theorem filter_seen_components (md5hex : String → String)
    (t : String → DDBGetResult) (anns : List Announcement) :
    (filter_seen_announcements md5hex true (some t) anns).1 =
      anns.filter (fun a => !is_announcement_seen md5hex t a) ∧
    (filter_seen_announcements md5hex true (some t) anns).2 =
      anns.filter (fun a => is_announcement_seen md5hex t a) := by
  unfold filter_seen_announcements
  dsimp only
  rw [List.partition_eq_filter_filter]
  constructor <;> simp [Function.comp_def]

theorem filter_seen_disabled (md5hex : String → String)
    (table : Option (String → DDBGetResult)) (anns : List Announcement) :
    filter_seen_announcements md5hex false table anns = (anns, []) := by
  unfold filter_seen_announcements
  cases table <;> rfl

theorem filter_seen_raised (md5hex : String → String) (msg : String)
    (anns : List Announcement) :
    filter_seen_announcements md5hex true
      (some (fun _ => DDBGetResult.raised msg)) anns = (anns, []) := by
  unfold filter_seen_announcements
  dsimp only
  rw [List.partition_eq_filter_filter]
  simp [is_announcement_seen]

theorem send_slack_notified_cases (slack_send : List Announcement → Nat × Nat)
    (anns : List Announcement) (token channel : String) (results : Results) :
    (send_slack_notifications slack_send anns token channel results).2.2 = [] ∨
    (send_slack_notifications slack_send anns token channel results).2.2 = anns := by
  unfold send_slack_notifications
  split
  · exact Or.inl rfl
  · dsimp only
    split
    · exact Or.inr rfl
    · exact Or.inr rfl

theorem process_features_store_mono (md5hex : String → String)
    (put_fails : Announcement → Bool) (slack_send : List Announcement → Nat × Nat)
    (cfg : Config) (table : Option (String → DDBGetResult)) (store : List String)
    (sc : Nat) (rel0 non0 : List Announcement) (x : String) (hx : x ∈ store) :
    x ∈ (process_features md5hex put_fails slack_send cfg table store sc rel0 non0).store := by
  simp only [process_features]
  split
  · rw [save_announcement_store]
    exact List.mem_append_left _ hx
  · exact hx

theorem process_features_notified_new (md5hex : String → String)
    (put_fails : Announcement → Bool) (slack_send : List Announcement → Nat × Nat)
    (cfg : Config) (t : String → DDBGetResult) (store : List String)
    (sc : Nat) (rel0 non0 : List Announcement) (a : Announcement)
    (hnh : cfg.no_history = false)
    (ha : a ∈ (process_features md5hex put_fails slack_send cfg (some t) store sc rel0 non0).notified) :
    is_announcement_seen md5hex t a = false := by
  simp only [process_features, hnh, Bool.not_false] at ha
  rcases hc : cfg.slack_enabled &&
      !(filter_seen_announcements md5hex true (some t) rel0).1.isEmpty with _ | _
  · rw [hc] at ha
    simp at ha
  · rw [hc] at ha
    simp only [if_true] at ha
    rcases send_slack_notified_cases slack_send
        (filter_seen_announcements md5hex true (some t) rel0).1 cfg.slack_token
        cfg.slack_channel _ with h | h
    · rw [h] at ha
      exact absurd ha (List.not_mem_nil a)
    · rw [h] at ha
      rw [(filter_seen_components md5hex t rel0).1] at ha
      have := (List.mem_filter.mp ha).2
      cases hs : is_announcement_seen md5hex t a
      · rfl
      · rw [hs] at this
        exact absurd this (by decide)

theorem process_features_ok_no_slack (md5hex : String → String)
    (put_fails : Announcement → Bool) (slack_send : List Announcement → Nat × Nat)
    (cfg : Config) (table : Option (String → DDBGetResult)) (store : List String)
    (sc : Nat) (rel0 non0 : List Announcement) (hsl : cfg.slack_enabled = false) :
    except_is_ok (process_features md5hex put_fails slack_send cfg table store
      sc rel0 non0).result = true := by
  unfold process_features
  rw [hsl]
  simp [except_is_ok]

theorem run_pipeline_never_notified (md5hex : String → String)
    (put_fails : Announcement → Bool) (slack_send : List Announcement → Nat × Nat)
    (cfg : Config) (a : Announcement) (hnh : cfg.no_history = false) :
    ∀ (bs : List (List Announcement)) (store : List String),
    store.contains (generate_announcement_id md5hex a) = true →
    ∀ ns ∈ run_pipeline_history md5hex put_fails slack_send cfg store bs, a ∉ ns := by
  intro bs
  induction bs with
  | nil =>
    intro store _ ns hns
    rw [run_pipeline_history] at hns
    exact absurd hns (List.not_mem_nil ns)
  | cons batch rest ih =>
    intro store hst ns hns
    rw [run_pipeline_history] at hns
    rcases List.mem_cons.mp hns with rfl | h2
    · intro hmem
      have hseen := process_features_notified_new md5hex put_fails slack_send cfg
        (lookup_of store) store 0 batch [] a hnh hmem
      rw [is_seen_lookup_of, hst] at hseen
      exact Bool.noConfusion hseen
    · refine ih _ ?_ ns h2
      have hmem := (contains_iff_mem store _).mp hst
      exact (contains_iff_mem _ _).mpr
        (process_features_store_mono md5hex put_fails slack_send cfg
          (some (lookup_of store)) store 0 batch [] _ hmem)

/-- C1: with deduplication enabled and a reachable store that has recorded
the identity of `a`, no later run ever hands `a` to the Notifier: each
run's filter step routes `a` to the already-seen partition and keeps it out
of the new partition, the recorded identity survives every run (the store
only grows), so across any sequence of later runs `a` is never notified;
with history disabled, or with a store whose lookups raise, the filter step
performs no deduplication and the run still completes successfully. -/
theorem C1_at_most_once_delivery (md5hex : String → String)
    (put_fails : Announcement → Bool) (slack_send : List Announcement → Nat × Nat)
    (cfg cfg2 cfg3 : Config) (a : Announcement) (store : List String)
    (batch : List Announcement) (bs : List (List Announcement))
    (ns : List Announcement) (msg : String)
    (hnh : cfg.no_history = false)
    (hrec : store.contains (generate_announcement_id md5hex a) = true)
    (hns : ns ∈ run_pipeline_history md5hex put_fails slack_send cfg store bs)
    (hbatch : a ∈ batch)
    (h2nh : cfg2.no_history = true) (h2sl : cfg2.slack_enabled = false)
    (h3nh : cfg3.no_history = false) (h3sl : cfg3.slack_enabled = false) :
    a ∉ ns ∧
    a ∈ (filter_seen_announcements md5hex true (some (lookup_of store)) batch).2 ∧
    a ∉ (filter_seen_announcements md5hex true (some (lookup_of store)) batch).1 ∧
    generate_announcement_id md5hex a ∈
      (process_features md5hex put_fails slack_send cfg (some (lookup_of store))
        store 0 batch []).store ∧
    filter_seen_announcements md5hex false none batch = (batch, []) ∧
    except_is_ok (process_features md5hex put_fails slack_send cfg2 none store
      0 batch []).result = true ∧
    filter_seen_announcements md5hex true (some (fun _ => DDBGetResult.raised msg))
      batch = (batch, []) ∧
    except_is_ok (process_features md5hex put_fails slack_send cfg3
      (some (fun _ => DDBGetResult.raised msg)) store 0 batch []).result = true := by
  have hseen : is_announcement_seen md5hex (lookup_of store) a = true := by
    rw [is_seen_lookup_of, hrec]
  refine ⟨?_, ?_, ?_, ?_, ?_, ?_, ?_, ?_⟩
  · exact run_pipeline_never_notified md5hex put_fails slack_send cfg a hnh bs store hrec ns hns
  · rw [(filter_seen_components md5hex (lookup_of store) batch).2]
    exact List.mem_filter.mpr ⟨hbatch, hseen⟩
  · rw [(filter_seen_components md5hex (lookup_of store) batch).1]
    intro hmem
    have := (List.mem_filter.mp hmem).2
    rw [hseen] at this
    exact absurd this (by decide)
  · exact process_features_store_mono md5hex put_fails slack_send cfg
      (some (lookup_of store)) store 0 batch [] _ ((contains_iff_mem store _).mp hrec)
  · exact filter_seen_disabled md5hex none batch
  · exact process_features_ok_no_slack md5hex put_fails slack_send cfg2 none store 0 batch [] h2sl
  · exact filter_seen_raised md5hex msg batch
  · exact process_features_ok_no_slack md5hex put_fails slack_send cfg3
      (some (fun _ => DDBGetResult.raised msg)) store 0 batch [] h3sl

theorem send_slack_skip (slack_send : List Announcement → Nat × Nat)
    (anns : List Announcement) (token channel : String) (results : Results)
    (h : token = "" ∨ channel = "") :
    send_slack_notifications slack_send anns token channel results =
      (results, none, []) := by
  unfold send_slack_notifications
  rcases h with h | h <;> rw [h] <;> simp

/-- Witness for C1 at a concrete recorded announcement, two later runs and
concrete degraded-store configurations. -/
theorem C1_witness :
    annEC2 ∉ ([] : List Announcement) ∧
    annEC2 ∈ (filter_seen_announcements md5id true
      (some (lookup_of [generate_announcement_id md5id annEC2])) [annEC2, annCF]).2 ∧
    annEC2 ∉ (filter_seen_announcements md5id true
      (some (lookup_of [generate_announcement_id md5id annEC2])) [annEC2, annCF]).1 ∧
    generate_announcement_id md5id annEC2 ∈
      (process_features md5id putOk slackAllOk cfgMain
        (some (lookup_of [generate_announcement_id md5id annEC2]))
        [generate_announcement_id md5id annEC2] 0 [annEC2, annCF] []).store ∧
    filter_seen_announcements md5id false none [annEC2, annCF] = ([annEC2, annCF], []) ∧
    except_is_ok (process_features md5id putOk slackAllOk cfgNoHist none
      [generate_announcement_id md5id annEC2] 0 [annEC2, annCF] []).result = true ∧
    filter_seen_announcements md5id true (some (fun _ => DDBGetResult.raised "boom"))
      [annEC2, annCF] = ([annEC2, annCF], []) ∧
    except_is_ok (process_features md5id putOk slackAllOk cfgNoSlack
      (some (fun _ => DDBGetResult.raised "boom"))
      [generate_announcement_id md5id annEC2] 0 [annEC2, annCF] []).result = true :=
  C1_at_most_once_delivery md5id putOk slackAllOk cfgMain cfgNoHist cfgNoSlack annEC2
    [generate_announcement_id md5id annEC2] [annEC2, annCF]
    [[annEC2], [annEC2, annCF]] [] "boom" rfl (by decide) (by decide) (by decide)
    rfl rfl rfl rfl

/-- C10: with Slack enabled, relevant announcements present, but the token
or the channel missing (falsy), the pipeline performs no delivery attempt
(the notified list is empty and the outcome is independent of the Slack
sender), raises nothing, and the returned statistics carry no slack
success/failure fields. -/
theorem C10_missing_credentials_silent_noop (md5hex : String → String)
    (put_fails : Announcement → Bool)
    (slack_send slack_send2 : List Announcement → Nat × Nat)
    (cfg : Config) (table : Option (String → DDBGetResult)) (store : List String)
    (sc : Nat) (rel0 non0 : List Announcement)
    (hsl : cfg.slack_enabled = true)
    (hmiss : cfg.slack_token = "" ∨ cfg.slack_channel = "")
    (hne : rel0 ≠ []) :
    (process_features md5hex put_fails slack_send cfg table store sc rel0 non0).notified = [] ∧
    (process_features md5hex put_fails slack_send cfg table store sc rel0 non0).result =
      Except.ok (process_features md5hex put_fails slack_send cfg table store sc rel0 non0).finalResults ∧
    (process_features md5hex put_fails slack_send cfg table store sc rel0
      non0).finalResults.slack_success = none ∧
    (process_features md5hex put_fails slack_send cfg table store sc rel0
      non0).finalResults.slack_failure = none ∧
    process_features md5hex put_fails slack_send cfg table store sc rel0 non0 =
      process_features md5hex put_fails slack_send2 cfg table store sc rel0 non0 := by
  refine ⟨?_, ?_, ?_, ?_, ?_⟩ <;>
    simp only [process_features] <;>
    cases hn : cfg.no_history <;> cases table <;>
    simp only [Bool.not_false, Bool.not_true] <;>
    split <;>
    simp_all [send_slack_skip _ _ _ _ _ hmiss]

/-- Witness for C10 at a concrete missing-token configuration. -/
theorem C10_witness :
    (process_features md5id putOk slackAllOk cfgNoToken none [] 0 [annEC2] []).notified = [] ∧
    (process_features md5id putOk slackAllOk cfgNoToken none [] 0 [annEC2] []).result =
      Except.ok (process_features md5id putOk slackAllOk cfgNoToken none [] 0
        [annEC2] []).finalResults ∧
    (process_features md5id putOk slackAllOk cfgNoToken none [] 0
      [annEC2] []).finalResults.slack_success = none ∧
    (process_features md5id putOk slackAllOk cfgNoToken none [] 0
      [annEC2] []).finalResults.slack_failure = none ∧
    process_features md5id putOk slackAllOk cfgNoToken none [] 0 [annEC2] [] =
      process_features md5id putOk slackOneFail cfgNoToken none [] 0 [annEC2] [] :=
  C10_missing_credentials_silent_noop md5id putOk slackAllOk slackOneFail cfgNoToken
    none [] 0 [annEC2] [] rfl (Or.inl rfl) (by decide)

/-- C8 (amended): when the Slack sender reports a non-zero failure count,
the pipeline records the delivery success/failure counts into the results
dict and only then raises; the raised error carries the failure count in
its message (not the statistics object); the table state still reflects the
save performed before notification; and the notifier received exactly the
new announcements. -/
theorem C8_delivery_failure_after_stats (md5hex : String → String)
    (put_fails : Announcement → Bool) (slack_send : List Announcement → Nat × Nat)
    (cfg : Config) (t : String → DDBGetResult) (store : List String)
    (sc : Nat) (rel0 non0 new : List Announcement) (s f : Nat)
    (hsl : cfg.slack_enabled = true) (hnh : cfg.no_history = false)
    (htok : cfg.slack_token ≠ "") (hch : cfg.slack_channel ≠ "")
    (hnew : (filter_seen_announcements md5hex true (some t) rel0).1 = new)
    (hne : new ≠ []) (hsend : slack_send new = (s, f)) (hf : 0 < f) :
    (process_features md5hex put_fails slack_send cfg (some t) store sc rel0 non0).result =
      Except.error (slack_failure_msg f) ∧
    (process_features md5hex put_fails slack_send cfg (some t) store sc rel0
      non0).finalResults.slack_success = some s ∧
    (process_features md5hex put_fails slack_send cfg (some t) store sc rel0
      non0).finalResults.slack_failure = some f ∧
    (process_features md5hex put_fails slack_send cfg (some t) store sc rel0 non0).store =
      (save_announcement md5hex put_fails store new).2 ∧
    (process_features md5hex put_fails slack_send cfg (some t) store sc rel0
      non0).notified = new := by
  have hie : new.isEmpty = false := by
    cases new
    · exact absurd rfl hne
    · rfl
  refine ⟨?_, ?_, ?_, ?_, ?_⟩ <;>
    simp only [process_features, send_slack_notifications, hnh, hsl, hnew, hie,
      Bool.not_false, Bool.true_and, Bool.and_true, Option.isSome_some, if_true] <;>
    rw [if_neg (by simp [htok, hch]), hsend] <;>
    simp [hf]

/-- Witness for the amended C8 at a concrete failing delivery. -/
theorem C8_witness :
    (process_features md5id putOk slackOneFail cfgMain (some (lookup_of []))
      [] 0 [annEC2] []).result = Except.error (slack_failure_msg 1) ∧
    (process_features md5id putOk slackOneFail cfgMain (some (lookup_of []))
      [] 0 [annEC2] []).finalResults.slack_success = some 0 ∧
    (process_features md5id putOk slackOneFail cfgMain (some (lookup_of []))
      [] 0 [annEC2] []).finalResults.slack_failure = some 1 ∧
    (process_features md5id putOk slackOneFail cfgMain (some (lookup_of []))
      [] 0 [annEC2] []).store = (save_announcement md5id putOk [] [annEC2]).2 ∧
    (process_features md5id putOk slackOneFail cfgMain (some (lookup_of []))
      [] 0 [annEC2] []).notified = [annEC2] :=
  C8_delivery_failure_after_stats md5id putOk slackOneFail cfgMain (lookup_of [])
    [] 0 [annEC2] [] [annEC2] 0 1 rfl rfl (by decide) (by decide) (by decide)
    (by decide) rfl (by decide)

/-- C8 counterexample: two runs with different statistics (relevant counts
1 and 2) raise the very same error value, so the error the caller receives
cannot carry the completed run's statistics — the results dict is lost on
the raising path. -/
theorem C8_counterexample :
    (process_features md5id putOk slackOneFail cfgSlackOnly none [] 0 [annEC2] []).result =
      (process_features md5id putOk slackOneFail cfgSlackOnly none [] 0
        [annEC2, annCF] []).result ∧
    (process_features md5id putOk slackOneFail cfgSlackOnly none [] 0
      [annEC2] []).finalResults.relevant_count ≠
      (process_features md5id putOk slackOneFail cfgSlackOnly none [] 0
        [annEC2, annCF] []).finalResults.relevant_count :=
  ⟨rfl, by decide⟩
